import Mathlib

/-!
Shallow embedding of the per-viewport image-sequence controller of the
nifty-nii viewer (the `Viewport` component of `RealDicomViewer`, the `Index`
page, and `FileUploader.startUpload`), together with the theorems settling
the specification claims.

Conventions of the embedding:
* JS numbers used as integers become `Int` (indices, instance numbers) or
  `Nat` (lengths); JS fractional arithmetic (zoom, pan, canvas geometry)
  becomes `Rat`.
* React `useState` cells become fields of an explicit state record;
  each event handler becomes a state-transition function.
* A React `useEffect` with a dependency array is modelled by storing the
  dependency tuple of its last run: committing the effect re-runs its body
  (cleanup first) exactly when the current tuple differs from the stored
  one, which is React's documented semantics.
* Fallible code returns `Except`/`Option`; the `catch` branches become the
  explicit failure constructors.
-/

/-- One loadable slice, the `DicomImage` record of the source
(fields `imageId`, `instanceNumber`, `url`). -/
structure DicomImage where
  imageId : String
  instanceNumber : Int
  url : String
deriving DecidableEq, Repr

/-- One instance-metadata record as returned by the backend: tag `00080018`
(SOP instance UID), optional tag `00200013` (instance number; `none` models
the JS `undefined` produced by the optional chaining), tag `00081190`
(retrieve URL). -/
structure InstanceRecord where
  sopInstanceUid : String
  instanceNumberField : Option Int
  wadoUrl : String
deriving DecidableEq, Repr

/-- One series record; only tag `0020000E` (series instance UID) is read. -/
structure SeriesRecord where
  seriesInstanceUid : String
deriving DecidableEq, Repr

/-- The metadata backend as seen by `loadDicomImages`: the series list for
the study, and the instance list returned for a series UID. -/
structure Backend where
  series : List SeriesRecord
  instances : String → List InstanceRecord

/-- Failure of `loadDicomImages`: the `throw new Error('No series found')`
branch taken when the series list is empty. -/
inductive LoadError where
  | noSeriesFound
deriving DecidableEq, Repr

/-- JS `url.replace('wadouri:', '')`: remove the first occurrence of
`"wadouri:"` (JS `String.replace` with a string pattern replaces only the
first match). -/
def stripWadouri (s : String) : String :=
  match s.splitOn "wadouri:" with
  | [] => s
  | a :: rest =>
    if rest.isEmpty then s else a ++ String.intercalate "wadouri:" rest

/-- JS `instance['00200013']?.Value[0] || index + 1`: the `||` falls through
to the default not only when the field is absent (`undefined`) but also when
its value is the falsy number `0`. -/
def extractInstanceNumber (field : Option Int) (index : Nat) : Int :=
  match field with
  | some v => if v = 0 then (index : Int) + 1 else v
  | none => (index : Int) + 1

/-- The per-record body of the `instancesData.map` in `loadDicomImages`. -/
def mkDicomImage (index : Nat) (r : InstanceRecord) : DicomImage :=
  { imageId := r.sopInstanceUid
    instanceNumber := extractInstanceNumber r.instanceNumberField index
    url := stripWadouri r.wadoUrl }

/-- `instancesData.map((instance, index) => ...)` starting at index `i`. -/
def mapInstancesFrom (i : Nat) : List InstanceRecord → List DicomImage
  | [] => []
  | r :: rs => mkDicomImage i r :: mapInstancesFrom (i + 1) rs

/-- The full `instancesData.map((instance, index) => ...)`. -/
def mapInstances (l : List InstanceRecord) : List DicomImage :=
  mapInstancesFrom 0 l

/-- The comparator `(a, b) => a.instanceNumber - b.instanceNumber` of the
source, as the non-strict order it induces. -/
def sliceLe (a b : DicomImage) : Bool :=
  decide (a.instanceNumber ≤ b.instanceNumber)

/-- `loadDicomImages` (lines 172-205): fail with `NoSeriesFound` on an empty
series list; otherwise map the first series' instance records to
`DicomImage`s and sort them by instance number.  JS `Array.prototype.sort`
is specified to be stable, which `List.mergeSort` models exactly. -/
def loadDicomImages (b : Backend) : Except LoadError (List DicomImage) :=
  match b.series with
  | [] => .error .noSeriesFound
  | s :: _ =>
    .ok ((mapInstances (b.instances s.seriesInstanceUid)).mergeSort sliceLe)

/-- The `useState` cells of the `Viewport` component (lines 146-151). -/
structure ViewportState where
  isLoading : Bool
  images : List DicomImage
  currentImageIndex : Int
  isPlaying : Bool
  zoom : Rat
  pan : Rat × Rat
deriving DecidableEq, Repr

/-- The initial values of the `useState` cells: loading, no images,
index 0, not playing, zoom 1, pan (0, 0). -/
def initialViewportState : ViewportState :=
  { isLoading := true
    images := []
    currentImageIndex := 0
    isPlaying := false
    zoom := 1
    pan := (0, 0) }

/-- The success tail of `loadDicomImages` (lines 198-200): install the
sorted sequence, start at the middle slice `Math.floor(length / 2)`, clear
the loading flag.  No other state cell is written. -/
def applyLoadSuccess (s : ViewportState) (imgs : List DicomImage) : ViewportState :=
  { s with
    images := imgs
    currentImageIndex := ((imgs.length / 2 : Nat) : Int)
    isLoading := false }

/-- The `catch` branch of `loadDicomImages` (lines 201-204): only the
loading flag is cleared. -/
def applyLoadFailure (s : ViewportState) : ViewportState :=
  { s with isLoading := false }

/-- Apply the result of a finished load to the component state. -/
def applyLoadOutcome (s : ViewportState) (r : Except LoadError (List DicomImage)) :
    ViewportState :=
  match r with
  | .ok imgs => applyLoadSuccess s imgs
  | .error _ => applyLoadFailure s

/-- `handleWheel` (lines 276-292): `delta = deltaY > 0 ? -1 : 1`; with the
ctrl modifier held the event is a zoom gesture
(`zoom = max(0.1, min(5, zoom + delta*0.1))`), otherwise a scrub gesture
clamping `currentImageIndex + delta` into `[0, length-1]`, applied only
when more than one image is loaded. -/
def wheelDelta (deltaY : Int) : Int :=
  if deltaY > 0 then -1 else 1

/-- See `wheelDelta` for `const delta = e.deltaY > 0 ? -1 : 1`. -/
def handleWheel (s : ViewportState) (deltaY : Int) (ctrlKey : Bool) : ViewportState :=
  if ctrlKey then
    { s with
      zoom := max (1 / 10 : Rat) (min 5 (s.zoom + (wheelDelta deltaY : Rat) * (1 / 10))) }
  else
    if 1 < s.images.length then
      { s with
        currentImageIndex :=
          max 0 (min ((s.images.length : Int) - 1)
            (s.currentImageIndex + wheelDelta deltaY)) }
    else s

/-- The slider `onChange` handler (line 363):
`setCurrentImageIndex(parseInt(e.target.value))`.  The range input itself
constrains the value to `[0, length-1]` via its `min`/`max` attributes
(lines 360-361); the handler applies it unconditionally. -/
def setSliderIndex (s : ViewportState) (v : Int) : ViewportState :=
  { s with currentImageIndex := v }

/-- One playback-interval tick (line 166): `prev => (prev + 1) % len`.
The JS `%` is the truncating remainder (its sign follows the dividend),
which `Int.tmod` models exactly; for a negative dividend it differs from
Lean's Euclidean `%`. -/
def playbackStep (len : Nat) (i : Int) : Int :=
  Int.tmod (i + 1) (len : Int)

/-- A playback tick applied against the currently installed sequence. -/
def playbackTickState (s : ViewportState) : ViewportState :=
  { s with currentImageIndex := playbackStep s.images.length s.currentImageIndex }

/-- The play/pause button handler (line 318): `setIsPlaying(!isPlaying)`. -/
def togglePlaying (s : ViewportState) : ViewportState :=
  { s with isPlaying := !s.isPlaying }

/-- What the component body displays (lines 338-377): the spinner while
`isLoading`, otherwise the canvas area — empty when no images are loaded. -/
inductive DisplayState where
  | loading
  | empty
  | showing (n : Nat)
deriving DecidableEq, Repr

/-- Classify the rendered display of the viewport body. -/
def displayOf (s : ViewportState) : DisplayState :=
  if s.isLoading then .loading
  else if s.images.isEmpty then .empty
  else .showing s.images.length

/-- An asset load issued by `renderCurrentImage`: the `new Image()` whose
`onload` closure captured the current slice, zoom and pan. -/
structure AssetRequest where
  image : DicomImage
  zoom : Rat
  pan : Rat × Rat
deriving DecidableEq, Repr

/-- JS `images[currentImageIndex]`: `undefined` (here `none`) for any
out-of-range or negative index. -/
def sliceAt (imgs : List DicomImage) (idx : Int) : Option DicomImage :=
  if idx < 0 then none else imgs[idx.toNat]?

/-- The synchronous part of `renderCurrentImage` (lines 207-270): return
early with no draw when the sequence is empty (line 208), otherwise issue
an asset load for `images[currentImageIndex]` carrying the current zoom and
pan.  An `undefined` slice makes `currentImage.url` throw inside the
`try`, which the `catch` swallows — again no request. -/
def renderCurrentImage (s : ViewportState) : Option AssetRequest :=
  if s.images.length = 0 then none
  else (sliceAt s.images s.currentImageIndex).map
    (fun img => { image := img, zoom := s.zoom, pan := s.pan })

/-- The asynchronous render pipeline of one viewport: the asset loads in
flight and the request whose `onload` drew the canvas last. -/
structure RenderPipeline where
  inFlight : List AssetRequest
  canvas : Option AssetRequest
deriving DecidableEq, Repr

/-- A call of `renderCurrentImage` against state `s`: the issued load joins
the in-flight set.  The source attaches no token, generation counter or
cancellation to the request. -/
def issueRender (p : RenderPipeline) (s : ViewportState) : RenderPipeline :=
  match renderCurrentImage s with
  | some r => { p with inFlight := p.inFlight ++ [r] }
  | none => p

/-- The `onload` of the `k`-th in-flight load fires (lines 220-258): it
redraws the canvas with its captured slice unconditionally — the source
performs no check that the request still matches the current state. -/
def resolveLoad (p : RenderPipeline) (k : Nat) : RenderPipeline :=
  match p.inFlight[k]? with
  | some r => { canvas := some r, inFlight := p.inFlight.eraseIdx k }
  | none => p

/-- The `view` prop of a viewport (line 133). -/
inductive ViewKind where
  | axial
  | coronal
  | sagittal
  | volume3d
deriving DecidableEq, Repr

/-- A running `setInterval` of the playback effect: its callback closed
over the `images` array of the render in which the effect ran, and its
period in milliseconds (line 167: 150). -/
structure PlaybackTimer where
  capturedImages : List DicomImage
  periodMs : Nat
deriving DecidableEq, Repr

/-- One mounted `Viewport` instance: its props, state cells, the running
playback timer (if any), the dependency tuples of the last runs of the
playback effect (deps `[isPlaying, view, images.length]`, line 170) and of
the load effect (deps `[studyUid]`, line 155), and the log of
`loadDicomImages` invocations. -/
structure Component where
  studyUid : String
  view : ViewKind
  state : ViewportState
  timer : Option PlaybackTimer
  playbackDeps : Option (Bool × ViewKind × Nat)
  loadDeps : Option String
  loadLog : List String

/-- The current value of the playback effect's dependency array
`[isPlaying, view, images.length]`. -/
def playbackDepsOf (c : Component) : Bool × ViewKind × Nat :=
  (c.state.isPlaying, c.view, c.state.images.length)

/-- Run the playback effect body (lines 163-170): the cleanup of the
previous run clears any interval, then a new 150 ms interval capturing the
current `images` is installed exactly when
`isPlaying && view !== '3d' && images.length > 1`. -/
def runPlaybackEffect (c : Component) : Component :=
  { c with
    timer :=
      if c.state.isPlaying ∧ c.view ≠ ViewKind.volume3d ∧ 1 < c.state.images.length
      then some { capturedImages := c.state.images, periodMs := 150 }
      else none
    playbackDeps := some (playbackDepsOf c) }

/-- Commit the playback effect after a render: per React's dependency-array
semantics the body (and the previous cleanup) runs only when the tuple
`[isPlaying, view, images.length]` differs from the one of the last run. -/
def commitPlaybackEffect (c : Component) : Component :=
  if c.playbackDeps = some (playbackDepsOf c) then c else runPlaybackEffect c

/-- The installed interval fires: its callback advances the index by
`prev => (prev + 1) % images.length` where `images` is the array the
callback closed over — the captured one, not the current one. -/
def tickTimer (c : Component) : Component :=
  match c.timer with
  | none => c
  | some t =>
    { c with
      state :=
        { c.state with
          currentImageIndex :=
            playbackStep t.capturedImages.length c.state.currentImageIndex } }

/-- Unmounting the viewport runs the effect cleanup: the interval is
cleared. -/
def unmountViewport (c : Component) : Component :=
  { c with timer := none }

/-- `setIsPlaying` applied at the component level. -/
def setPlaying (c : Component) (b : Bool) : Component :=
  { c with state := { c.state with isPlaying := b } }

/-- A finished reload replaces the sequence wholesale via the success tail
of `loadDicomImages`. -/
def swapSequence (c : Component) (imgs : List DicomImage) : Component :=
  { c with state := applyLoadSuccess c.state imgs }

/-- Commit the load effect (lines 153-155, deps `[studyUid]`): when the
stored dependency differs from the current `studyUid` the body fires,
invoking `loadDicomImages` — whose synchronous prefix sets
`isLoading := true` (line 174). -/
def commitLoadEffect (c : Component) : Component :=
  if c.loadDeps = some c.studyUid then c
  else
    { c with
      loadDeps := some c.studyUid
      loadLog := c.loadLog ++ [c.studyUid]
      state := { c.state with isLoading := true } }

/-- A freshly mounted viewport: initial state cells, no timer, no effect
has run yet. -/
def initialComponent (uid : String) (view : ViewKind) : Component :=
  { studyUid := uid
    view := view
    state := initialViewportState
    timer := none
    playbackDeps := none
    loadDeps := none
    loadLog := [] }

/-- Mount a viewport against backend `b`: the load effect fires (first
render) and its asynchronous completion is applied. -/
def mountViewport (uid : String) (view : ViewKind) (b : Backend) : Component :=
  let c := commitLoadEffect (initialComponent uid view)
  { c with state := applyLoadOutcome c.state (loadDicomImages b) }

/-- Change the `studyUid` prop to `uid2` and commit the load effect; when
it fires (the stored dependency differs) the completed reload against
backend `b` is applied. -/
def switchStudy (c : Component) (uid2 : String) (b : Backend) : Component :=
  let c1 := { c with studyUid := uid2 }
  if c1.loadDeps = some c1.studyUid then c1
  else
    let c2 := commitLoadEffect c1
    { c2 with state := applyLoadOutcome c2.state (loadDicomImages b) }

/-- The input events the `Viewport` component implements: wheel (scrub or
ctrl-zoom), slider change, play/pause toggle, a playback tick, and the two
outcomes of a sequence load. -/
inductive InputEvent where
  | wheel (deltaY : Int) (ctrlKey : Bool)
  | sliderSet (v : Int)
  | togglePlay
  | tick
  | loadComplete (imgs : List DicomImage)
  | loadFailed
deriving DecidableEq, Repr

/-- Dispatch one input event to its handler. -/
def stepEvent (s : ViewportState) : InputEvent → ViewportState
  | .wheel deltaY ctrlKey => handleWheel s deltaY ctrlKey
  | .sliderSet v => setSliderIndex s v
  | .togglePlay => togglePlaying s
  | .tick => playbackTickState s
  | .loadComplete imgs => applyLoadSuccess s imgs
  | .loadFailed => applyLoadFailure s

/-- The composited draw position (lines 241-242):
`x = (canvas.width - drawWidth) / 2 + pan.x` and likewise for `y`, i.e. the
centered position plus the pan offset. -/
def drawPosition (canvasW canvasH drawW drawH : Rat) (pan : Rat × Rat) : Rat × Rat :=
  ((canvasW - drawW) / 2 + pan.1, (canvasH - drawH) / 2 + pan.2)

/-- The tag a file in the upload list carries (`'image' | 'mask'`). -/
inductive UploadFileType where
  | image
  | mask
deriving DecidableEq, Repr

/-- One entry of the `uploadedFiles` list of `FileUploader`. -/
structure UploadedFile where
  name : String
  ftype : UploadFileType
deriving DecidableEq, Repr

/-- The parsed JSON of a successful `/upload` response. -/
structure UploadResult where
  study_uid : String
  segmentation_classes : List String
deriving DecidableEq, Repr

/-- `startUpload` of `FileUploader.tsx` (lines 91-143): guard on exactly two
files and a chosen radiography type, require one file tagged image and one
tagged mask, then perform the request; a non-ok response or network error
lands in the `catch` (no result), a successful one yields the parsed result
that is handed to `onUploadComplete`. -/
def startUpload (uploadedFiles : List UploadedFile) (radiographyType : String)
    (response : Except String UploadResult) : Option UploadResult :=
  if uploadedFiles.length ≠ 2 ∨ radiographyType = "" then none
  else
    match uploadedFiles.find? (fun f => decide (f.ftype = UploadFileType.image)),
          uploadedFiles.find? (fun f => decide (f.ftype = UploadFileType.mask)) with
    | some _, some _ =>
      match response with
      | .ok result => some result
      | .error _ => none
    | _, _ => none

/-- The step the `Index` page is on (`'upload' | 'viewer'`). -/
inductive AppStep where
  | upload
  | viewer
deriving DecidableEq, Repr

/-- The `useState` cells of the `Index` page that the upload flow touches. -/
structure IndexState where
  currentStep : AppStep
  studyId : String
deriving DecidableEq, Repr

/-- `handleUploadComplete` of the `Index` page (lines 13-16): store the new
study id and move to the viewer step. -/
def handleUploadComplete (s : IndexState) (newStudyId : String) : IndexState :=
  { s with studyId := newStudyId, currentStep := AppStep.viewer }

/-- The composed upload flow: when `startUpload` reaches its success tail,
`onUploadComplete(result.study_uid, ...)` runs `handleUploadComplete`;
otherwise the page state is untouched. -/
def uploadFlow (s : IndexState) (files : List UploadedFile) (radiographyType : String)
    (response : Except String UploadResult) : IndexState :=
  match startUpload files radiographyType response with
  | some r => handleUploadComplete s r.study_uid
  | none => s

/-- A concrete series record for witnesses. -/
def sRec1 : SeriesRecord := { seriesInstanceUid := "s1" }

/-- A concrete backend whose single series answers three instance records,
two of them tied on instance number 1. -/
def bStable : Backend :=
  { series := [sRec1]
    instances := fun _ =>
      [ { sopInstanceUid := "i1", instanceNumberField := some 2, wadoUrl := "u1" }
      , { sopInstanceUid := "i2", instanceNumberField := some 1, wadoUrl := "u2" }
      , { sopInstanceUid := "i3", instanceNumberField := some 1, wadoUrl := "u3" } ] }

/-- A record whose instance-number field is present with value 0. -/
def rZero : InstanceRecord :=
  { sopInstanceUid := "sop0", instanceNumberField := some 0, wadoUrl := "u0" }

/-- A record whose instance-number field is present with value 7. -/
def rSeven : InstanceRecord :=
  { sopInstanceUid := "sop7", instanceNumberField := some 7, wadoUrl := "u7" }

/-- A slice and a distinct second slice for the stale-load scenario. -/
def imgA : DicomImage := { imageId := "a", instanceNumber := 1, url := "uA" }

/-- See `imgA`. -/
def imgB : DicomImage := { imageId := "b", instanceNumber := 2, url := "uB" }

/-- A loaded idle viewport showing `[imgA, imgB]` at index 0. -/
def sTwo : ViewportState :=
  { isLoading := false
    images := [imgA, imgB]
    currentImageIndex := 0
    isPlaying := false
    zoom := 1
    pan := (0, 0) }

/-- `sTwo` after one downward wheel scrub (deltaY ≤ 0, no modifier):
index 1. -/
def sTwoScrubbed : ViewportState := handleWheel sTwo (-3) false

/-- The interleaving of claim C1's scenario: render issued at index 0, a
scrub to index 1 issues a second render, the newer load resolves first and
the stale one resolves last. -/
def pipelineRun : RenderPipeline :=
  resolveLoad
    (resolveLoad
      (issueRender (issueRender { inFlight := [], canvas := none } sTwo) sTwoScrubbed)
      1)
    0

/-- The sequence loaded before a study switch. -/
def imgsOld : List DicomImage :=
  [ { imageId := "a1", instanceNumber := 1, url := "o1" }
  , { imageId := "a2", instanceNumber := 2, url := "o2" } ]

/-- A replacement sequence of the same length as `imgsOld`. -/
def imgsNew : List DicomImage :=
  [ { imageId := "b1", instanceNumber := 1, url := "n1" }
  , { imageId := "b2", instanceNumber := 2, url := "n2" } ]

/-- A replacement sequence of a different length. -/
def imgsNew3 : List DicomImage :=
  [ { imageId := "c1", instanceNumber := 1, url := "m1" }
  , { imageId := "c2", instanceNumber := 2, url := "m2" }
  , { imageId := "c3", instanceNumber := 3, url := "m3" } ]

/-- A playing 2d viewport over `imgsOld` whose playback effect has not yet
committed. -/
def cPlayingBase : Component :=
  { studyUid := "study1"
    view := ViewKind.axial
    state :=
      { isLoading := false
        images := imgsOld
        currentImageIndex := 0
        isPlaying := true
        zoom := 1
        pan := (0, 0) }
    timer := none
    playbackDeps := none
    loadDeps := some "study1"
    loadLog := ["study1"] }

/-- `cPlayingBase` after its playback effect committed: the 150 ms interval
over `imgsOld` is running. -/
def cPlaying : Component := commitPlaybackEffect cPlayingBase

/-- `cPlaying` after the study switch replaced the sequence by the
equal-length `imgsNew` and the playback effect was committed again. -/
def cAfterSwap : Component := commitPlaybackEffect (swapSequence cPlaying imgsNew)

/-- A playing viewport whose user has zoomed to 2. -/
def cZoomed : Component :=
  { studyUid := "study1"
    view := ViewKind.axial
    state :=
      { isLoading := false
        images := imgsOld
        currentImageIndex := 0
        isPlaying := true
        zoom := 2
        pan := (0, 0) }
    timer := some { capturedImages := imgsOld, periodMs := 150 }
    playbackDeps := some (true, ViewKind.axial, 2)
    loadDeps := some "study1"
    loadLog := ["study1"] }

/-- The series record of the backend used for the study switch. -/
def sRec2 : SeriesRecord := { seriesInstanceUid := "s2" }

/-- The backend for the switched-to study: one series, one instance. -/
def bNext : Backend :=
  { series := [sRec2]
    instances := fun _ =>
      [ { sopInstanceUid := "j1", instanceNumberField := some 1, wadoUrl := "w1" } ] }

/-- `cZoomed` after switching to study `"study2"` backed by `bNext`. -/
def cSwitched : Component := switchStudy cZoomed "study2" bNext

/-- A backend answering an empty series list. -/
def bEmpty : Backend := { series := [], instances := fun _ => [] }

/-- The two tagged files of the upload scenario. -/
def filesEx : List UploadedFile :=
  [ { name := "scan.nii.gz", ftype := UploadFileType.image }
  , { name := "mask.nii.gz", ftype := UploadFileType.mask } ]

/-- The successful backend response of the upload scenario. -/
def uploadResultEx : UploadResult :=
  { study_uid := "abc123", segmentation_classes := ["mandible"] }

/-- The `Index` page before the upload completes. -/
def sUploadPage : IndexState := { currentStep := AppStep.upload, studyId := "" }

/-- The invariant of claim C4: the current index addresses a slice of the
installed sequence. -/
abbrev indexInBounds (s : ViewportState) : Prop :=
  0 ≤ s.currentImageIndex ∧ s.currentImageIndex < (s.images.length : Int)

/-- The index trajectory of playback: the indices displayed at ticks
`0, ..., n-1` when playback starts at `start` over a sequence of length
`len`. -/
def playbackTrace (len : Nat) (start : Int) (n : Nat) : List Int :=
  (List.range n).map (fun k => (playbackStep len)^[k] start)


theorem sliceLe_trans (a b c : DicomImage) (hab : sliceLe a b) (hbc : sliceLe b c) :
    sliceLe a c := by
  simp only [sliceLe, decide_eq_true_eq] at *
  omega

theorem sliceLe_total (a b : DicomImage) : sliceLe a b || sliceLe b a := by
  simp only [sliceLe, Bool.or_eq_true, decide_eq_true_eq]
  omega

theorem mapInstancesFrom_getElem? (l : List InstanceRecord) (k i : Nat) :
    (mapInstancesFrom k l)[i]? = (l[i]?).map (mkDicomImage (k + i)) := by
  induction l generalizing k i with
  | nil => simp [mapInstancesFrom]
  | cons r rs ih =>
    cases i with
    | zero => simp [mapInstancesFrom]
    | succ i =>
      have h1 := ih (k + 1) i
      have h2 : k + 1 + i = k + (i + 1) := by omega
      simp only [mapInstancesFrom, List.getElem?_cons_succ, h1, h2]

theorem length_mapInstancesFrom (l : List InstanceRecord) (k : Nat) :
    (mapInstancesFrom k l).length = l.length := by
  induction l generalizing k with
  | nil => rfl
  | cons r rs ih => simp [mapInstancesFrom, ih]

theorem length_mapInstances (l : List InstanceRecord) :
    (mapInstances l).length = l.length :=
  length_mapInstancesFrom l 0

/-- C5: for every list of instance records returned by the backend, in any
order and possibly containing equal instance numbers, `loadDicomImages`
produces a sequence that is a reordering of the mapped records, sorted
ascending by `instanceNumber`, and stable: two records with equal instance
numbers keep their original response order. -/
theorem loadDicomImages_sorted_stable (b : Backend) (s0 : SeriesRecord)
    (rest : List SeriesRecord) (hs : b.series = s0 :: rest) :
    ∃ out, loadDicomImages b = .ok out ∧
      out.Pairwise (fun a c => a.instanceNumber ≤ c.instanceNumber) ∧
      out.Perm (mapInstances (b.instances s0.seriesInstanceUid)) ∧
      (∀ a c, List.Sublist [a, c] (mapInstances (b.instances s0.seriesInstanceUid)) →
        a.instanceNumber = c.instanceNumber → List.Sublist [a, c] out) := by
  refine ⟨(mapInstances (b.instances s0.seriesInstanceUid)).mergeSort sliceLe,
    by unfold loadDicomImages; rw [hs], ?_, List.mergeSort_perm _ _, ?_⟩
  · exact (List.sorted_mergeSort sliceLe_trans sliceLe_total _).imp
      (fun hab => by simpa [sliceLe] using hab)
  · intro a c hsub heq
    exact List.pair_sublist_mergeSort sliceLe_trans sliceLe_total
      (by simp [sliceLe, heq]) hsub

/-- Witness for C5 at the concrete backend `bStable`. -/
theorem loadDicomImages_sorted_stable_witness :
    bStable.series = sRec1 :: [] ∧
    ∃ out, loadDicomImages bStable = .ok out ∧
      out.Pairwise (fun a c => a.instanceNumber ≤ c.instanceNumber) ∧
      out.Perm (mapInstances (bStable.instances sRec1.seriesInstanceUid)) ∧
      (∀ a c, List.Sublist [a, c] (mapInstances (bStable.instances sRec1.seriesInstanceUid)) →
        a.instanceNumber = c.instanceNumber → List.Sublist [a, c] out) :=
  ⟨rfl, loadDicomImages_sorted_stable bStable sRec1 [] rfl⟩

/-- C6 counterexample: the record `rZero` carries instance number 0 in its
(present) instance-number field, yet the produced descriptor's instance
number is the positional default 1, not 0 — the JS `||` also falls through
on the falsy value 0, so "defaults exactly when the field is absent" is
false of the code. -/
theorem mapInstances_zero_counterexample :
    rZero.instanceNumberField = some 0 ∧
    (mapInstances [rZero]).map (fun d => d.instanceNumber) = [1] ∧
    ¬ ((mapInstances [rZero]).map (fun d => d.instanceNumber) = [0]) :=
  ⟨rfl, rfl, by decide⟩

/-- C6 (amended): the descriptor's instance number equals the record's
instance-number field when that field is present with a nonzero value, and
defaults to the record's position index + 1 when the field is absent or
when its value is 0 (the falsy fall-through of `||`). -/
theorem mapInstances_instanceNumber (l : List InstanceRecord) (i : Nat)
    (r : InstanceRecord) (h : l[i]? = some r) :
    ((mapInstances l)[i]?).map (fun d => d.instanceNumber) =
      some (extractInstanceNumber r.instanceNumberField i) ∧
    extractInstanceNumber none i = (i : Int) + 1 ∧
    extractInstanceNumber (some 0) i = (i : Int) + 1 ∧
    ∀ v : Int, v ≠ 0 → extractInstanceNumber (some v) i = v := by
  refine ⟨?_, rfl, rfl, fun v hv => by simp [extractInstanceNumber, hv]⟩
  simp [mapInstances, mapInstancesFrom_getElem?, h, mkDicomImage]

/-- Witness for the amended C6 at the one-record list `[rSeven]`. -/
theorem mapInstances_instanceNumber_witness :
    ([rSeven][0]? = some rSeven) ∧
    (((mapInstances [rSeven])[0]?).map (fun d => d.instanceNumber) =
      some (extractInstanceNumber rSeven.instanceNumberField 0) ∧
    extractInstanceNumber none 0 = (0 : Int) + 1 ∧
    extractInstanceNumber (some 0) 0 = (0 : Int) + 1 ∧
    ∀ v : Int, v ≠ 0 → extractInstanceNumber (some v) 0 = v) :=
  ⟨rfl, mapInstances_instanceNumber [rSeven] 0 rSeven rfl⟩

/-- C1 (code divergence at the failing input): over the sequence
`[imgA, imgB]` a render is issued at index 0; a wheel scrub moves the state
to index 1 and issues a second render; the newer (index-1) load resolves
first, then the stale index-0 load resolves.  `renderCurrentImage` attaches
no `(sequence, index)` key to a load and its `onload` redraws
unconditionally, so the stale result overwrites the newer one: the canvas
ends showing `imgA` although the current state demands `imgB`. -/
theorem renderCurrentImage_stale_overwrite :
    sTwoScrubbed.currentImageIndex = 1 ∧
    renderCurrentImage sTwoScrubbed = some { image := imgB, zoom := 1, pan := (0, 0) } ∧
    pipelineRun.canvas = some { image := imgA, zoom := 1, pan := (0, 0) } ∧
    imgA ≠ imgB :=
  ⟨rfl, rfl, rfl, by decide⟩

/-- C2 counterexample: the viewport `cZoomed` is zoomed to 2 and playing;
switching its study identifier to `"study2"` (backend `bNext`) leaves zoom
at 2 and playing at true, while the defaults are zoom 1 and playing false —
so "the entire NavigationState is reset to its default values" is false of
the code. -/
theorem switchStudy_not_full_reset :
    initialViewportState.zoom = 1 ∧
    initialViewportState.isPlaying = false ∧
    cSwitched.state.zoom = 2 ∧
    cSwitched.state.isPlaying = true ∧
    ¬ (cSwitched.state.zoom = 1 ∧ cSwitched.state.isPlaying = false) := by
  refine ⟨rfl, rfl, rfl, rfl, ?_⟩
  intro h
  exact absurd h.2 (by simp [cSwitched, switchStudy, commitLoadEffect, cZoomed,
    applyLoadOutcome, loadDicomImages, bNext, applyLoadSuccess])

/-- C2 (amended): whenever the backing study identifier changes, the
sequence is reloaded and only the current index is reset — to the new
sequence's center slice `floor(len / 2)`; zoom, pan and the playing flag
keep their previous values (pan stays `(0, 0)` only because nothing ever
writes it). -/
theorem switchStudy_resets_index_only (c : Component) (uid2 : String) (b : Backend)
    (s0 : SeriesRecord) (rest : List SeriesRecord)
    (hchange : c.loadDeps ≠ some uid2) (hs : b.series = s0 :: rest) :
    (switchStudy c uid2 b).state.currentImageIndex =
      (((b.instances s0.seriesInstanceUid).length / 2 : Nat) : Int) ∧
    (switchStudy c uid2 b).state.images.length =
      (b.instances s0.seriesInstanceUid).length ∧
    (switchStudy c uid2 b).state.zoom = c.state.zoom ∧
    (switchStudy c uid2 b).state.pan = c.state.pan ∧
    (switchStudy c uid2 b).state.isPlaying = c.state.isPlaying := by
  have hload : loadDicomImages b =
      .ok ((mapInstances (b.instances s0.seriesInstanceUid)).mergeSort sliceLe) := by
    unfold loadDicomImages; rw [hs]
  unfold switchStudy
  simp [hchange, commitLoadEffect, applyLoadOutcome, hload, applyLoadSuccess,
    List.length_mergeSort, length_mapInstances]

/-- Witness for the amended C2: `cZoomed` switched to `"study2"` against
`bNext`. -/
theorem switchStudy_resets_index_only_witness :
    cZoomed.loadDeps ≠ some "study2" ∧ bNext.series = sRec2 :: [] ∧
    ((switchStudy cZoomed "study2" bNext).state.currentImageIndex =
      (((bNext.instances sRec2.seriesInstanceUid).length / 2 : Nat) : Int) ∧
    (switchStudy cZoomed "study2" bNext).state.images.length =
      (bNext.instances sRec2.seriesInstanceUid).length ∧
    (switchStudy cZoomed "study2" bNext).state.zoom = cZoomed.state.zoom ∧
    (switchStudy cZoomed "study2" bNext).state.pan = cZoomed.state.pan ∧
    (switchStudy cZoomed "study2" bNext).state.isPlaying = cZoomed.state.isPlaying) :=
  ⟨by decide, rfl,
   switchStudy_resets_index_only cZoomed "study2" bNext sRec2 [] (by decide) rfl⟩

/-- C3 counterexample: `cPlaying` runs its playback interval over
`imgsOld`; a study switch replaces the sequence by `imgsNew` of the same
length.  The playback effect keys on `[isPlaying, view, images.length]`,
which did not change, so the effect does not re-run: after the swap the old
interval is still installed, still closing over the replaced `imgsOld`, and
the next tick's index mutation is computed against the old sequence — the
old timer is neither stopped nor released on this exit path. -/
theorem playbackTimer_survives_equal_length_swap :
    cPlaying.timer = some { capturedImages := imgsOld, periodMs := 150 } ∧
    cAfterSwap.state.images = imgsNew ∧
    cAfterSwap.timer = some { capturedImages := imgsOld, periodMs := 150 } ∧
    imgsOld ≠ imgsNew ∧
    (tickTimer cAfterSwap).state.currentImageIndex =
      playbackStep imgsOld.length cAfterSwap.state.currentImageIndex :=
  ⟨rfl, rfl, rfl, by decide, rfl⟩

/-- C3 (amended): the playback effect is keyed on
`[isPlaying, view, images.length]`, not on sequence identity.  For a
playing, non-3d viewport whose effect has committed: (1) a sequence swap
that changes the length (to a length > 1) tears the old interval down and
installs a fresh one capturing the new sequence; (2) a swap to a sequence
of equal length leaves the old interval installed with the old sequence
captured, but its index mutations coincide with mutations computed against
the new sequence, because only the (equal) length enters the tick;
(3) toggling play off tears the timer down; (4) unmount clears it. -/
theorem playbackTimer_teardown_by_length (c : Component) (imgs2 : List DicomImage)
    (hdeps : c.playbackDeps = some (playbackDepsOf c))
    (hplay : c.state.isPlaying = true)
    (hview : c.view ≠ ViewKind.volume3d) :
    (imgs2.length ≠ c.state.images.length → 1 < imgs2.length →
      (commitPlaybackEffect (swapSequence c imgs2)).timer =
        some { capturedImages := imgs2, periodMs := 150 }) ∧
    (imgs2.length = c.state.images.length →
      (commitPlaybackEffect (swapSequence c imgs2)).timer = c.timer ∧
      ∀ t, c.timer = some t → t.capturedImages.length = c.state.images.length →
        (tickTimer (commitPlaybackEffect (swapSequence c imgs2))).state.currentImageIndex =
          playbackStep imgs2.length
            (commitPlaybackEffect (swapSequence c imgs2)).state.currentImageIndex) ∧
    (commitPlaybackEffect (setPlaying c false)).timer = none ∧
    (unmountViewport c).timer = none := by
  refine ⟨?_, ?_, ?_, rfl⟩
  · intro hne hlen
    have hcond : ¬ ((swapSequence c imgs2).playbackDeps =
        some (playbackDepsOf (swapSequence c imgs2))) := by
      show ¬ (c.playbackDeps = some (c.state.isPlaying, c.view, imgs2.length))
      rw [hdeps]
      intro h
      have h3 := Option.some.inj h
      have h4 : c.state.images.length = imgs2.length :=
        congrArg (fun p => p.2.2) h3
      exact hne h4.symm
    rw [commitPlaybackEffect, if_neg hcond]
    have hc : (swapSequence c imgs2).state.isPlaying = true ∧
        (swapSequence c imgs2).view ≠ ViewKind.volume3d ∧
        1 < (swapSequence c imgs2).state.images.length := ⟨hplay, hview, hlen⟩
    simp only [runPlaybackEffect]
    rw [if_pos hc]
    rfl
  · intro heq
    have hcond : (swapSequence c imgs2).playbackDeps =
        some (playbackDepsOf (swapSequence c imgs2)) := by
      show c.playbackDeps = some (c.state.isPlaying, c.view, imgs2.length)
      rw [hdeps, heq]
      rfl
    have hcommit : commitPlaybackEffect (swapSequence c imgs2) = swapSequence c imgs2 := by
      rw [commitPlaybackEffect, if_pos hcond]
    refine ⟨by rw [hcommit]; rfl, ?_⟩
    intro t ht hlen2
    rw [hcommit]
    show (tickTimer (swapSequence c imgs2)).state.currentImageIndex = _
    unfold tickTimer
    rw [show (swapSequence c imgs2).timer = some t from ht]
    show playbackStep t.capturedImages.length
      (swapSequence c imgs2).state.currentImageIndex = _
    rw [hlen2, heq]
  · have hcond : ¬ ((setPlaying c false).playbackDeps =
        some (playbackDepsOf (setPlaying c false))) := by
      show ¬ (c.playbackDeps = some (false, c.view, c.state.images.length))
      rw [hdeps]
      intro h
      have h3 := Option.some.inj h
      have h4 : c.state.isPlaying = false := congrArg (fun p => p.1) h3
      rw [hplay] at h4
      simp at h4
    rw [commitPlaybackEffect, if_neg hcond]
    have hc : ¬ ((setPlaying c false).state.isPlaying = true ∧
        (setPlaying c false).view ≠ ViewKind.volume3d ∧
        1 < (setPlaying c false).state.images.length) := by
      intro h
      have h1 : (false : Bool) = true := h.1
      simp at h1
    simp only [runPlaybackEffect]
    rw [if_neg hc]

/-- Witness for the amended C3 at `cPlaying` and the three-element
replacement `imgsNew3`. -/
theorem playbackTimer_teardown_by_length_witness :
    cPlaying.playbackDeps = some (playbackDepsOf cPlaying) ∧
    cPlaying.state.isPlaying = true ∧
    cPlaying.view ≠ ViewKind.volume3d ∧
    ((imgsNew3.length ≠ cPlaying.state.images.length → 1 < imgsNew3.length →
      (commitPlaybackEffect (swapSequence cPlaying imgsNew3)).timer =
        some { capturedImages := imgsNew3, periodMs := 150 }) ∧
    (imgsNew3.length = cPlaying.state.images.length →
      (commitPlaybackEffect (swapSequence cPlaying imgsNew3)).timer = cPlaying.timer ∧
      ∀ t, cPlaying.timer = some t →
        t.capturedImages.length = cPlaying.state.images.length →
        (tickTimer (commitPlaybackEffect
            (swapSequence cPlaying imgsNew3))).state.currentImageIndex =
          playbackStep imgsNew3.length
            (commitPlaybackEffect
              (swapSequence cPlaying imgsNew3)).state.currentImageIndex) ∧
    (commitPlaybackEffect (setPlaying cPlaying false)).timer = none ∧
    (unmountViewport cPlaying).timer = none) :=
  ⟨rfl, rfl, by decide,
   playbackTimer_teardown_by_length cPlaying imgsNew3 rfl rfl (by decide)⟩

/-- C4: for a sequence of length ≥ 1, the index stays within
`[0, length-1]` after any wheel scrub (the handler clamps any requested
index, so out-of-range requests clamp silently), after any slider set whose
value the range input constrained to `[0, length-1]`, and after any
playback tick from an in-bounds index (which wraps by the truncating
remainder); for the empty sequence,
`renderCurrentImage` takes its early-out and draws nothing — no throw. -/
theorem currentIndex_in_bounds :
    (∀ (s : ViewportState) (deltaY : Int) (ctrlKey : Bool),
      1 ≤ s.images.length → indexInBounds s → indexInBounds (handleWheel s deltaY ctrlKey)) ∧
    (∀ (s : ViewportState) (v : Int),
      0 ≤ v → v < (s.images.length : Int) → indexInBounds (setSliderIndex s v)) ∧
    (∀ s : ViewportState, 1 ≤ s.images.length → indexInBounds s →
      indexInBounds (playbackTickState s)) ∧
    (∀ s : ViewportState, s.images = [] → renderCurrentImage s = none) := by
  refine ⟨?_, ?_, ?_, ?_⟩
  · intro s deltaY ctrlKey hlen hb
    by_cases hc : ctrlKey
    · have h1 : indexInBounds { s with
          zoom := max (1 / 10 : Rat)
            (min 5 (s.zoom + (wheelDelta deltaY : Rat) * (1 / 10))) } := hb
      unfold handleWheel
      rw [if_pos hc]
      exact h1
    · unfold handleWheel
      rw [if_neg hc]
      by_cases hl : 1 < s.images.length
      · rw [if_pos hl]
        have hL : (1 : Int) < (s.images.length : Int) := by exact_mod_cast hl
        refine ⟨le_max_left _ _, ?_⟩
        show max (0 : Int) (min ((s.images.length : Int) - 1)
          (s.currentImageIndex + wheelDelta deltaY)) < (s.images.length : Int)
        exact max_lt (by omega) (lt_of_le_of_lt (min_le_left _ _) (by omega))
      · rw [if_neg hl]
        exact hb
  · intro s v h0 h1
    exact ⟨h0, h1⟩
  · intro s hlen hb
    have hpos : (0 : Int) < (s.images.length : Int) := by exact_mod_cast hlen
    constructor
    · exact Int.tmod_nonneg _ (by omega)
    · exact Int.tmod_lt_of_pos _ hpos
  · intro s h
    simp [renderCurrentImage, h]

/-- Witness for C4 at the two-slice viewport `sTwo` and the empty initial
state. -/
theorem currentIndex_in_bounds_witness :
    (1 ≤ sTwo.images.length ∧ indexInBounds sTwo ∧
      indexInBounds (handleWheel sTwo 5 false)) ∧
    ((0 : Int) ≤ 1 ∧ (1 : Int) < (sTwo.images.length : Int) ∧
      indexInBounds (setSliderIndex sTwo 1)) ∧
    (indexInBounds sTwo ∧ indexInBounds (playbackTickState sTwo)) ∧
    (initialViewportState.images = [] ∧ renderCurrentImage initialViewportState = none) :=
  ⟨⟨by decide, by decide, currentIndex_in_bounds.1 sTwo 5 false (by decide) (by decide)⟩,
   ⟨by decide, by decide, currentIndex_in_bounds.2.1 sTwo 1 (by decide) (by decide)⟩,
   ⟨by decide, currentIndex_in_bounds.2.2.1 sTwo (by decide) (by decide)⟩,
   ⟨rfl, currentIndex_in_bounds.2.2.2 initialViewportState rfl⟩⟩

/-- C7: while playing in a non-3d viewport over more than one slice, the
(re)run playback effect installs an interval with the fixed 150 ms period
capturing the current sequence; each tick advances the index to
`(i + 1) mod capturedLength` — wrapping around, never clamping; starting at
index 0 over a 3-element sequence, 5 ticks display the index trace
`[0, 1, 2, 0, 1]`. -/
theorem playback_wraps_150ms :
    (∀ c : Component, c.state.isPlaying = true → c.view ≠ ViewKind.volume3d →
      1 < c.state.images.length →
      (runPlaybackEffect c).timer =
        some { capturedImages := c.state.images, periodMs := 150 }) ∧
    (∀ (c : Component) (t : PlaybackTimer), c.timer = some t →
      (tickTimer c).state.currentImageIndex =
        playbackStep t.capturedImages.length c.state.currentImageIndex) ∧
    playbackTrace 3 0 5 = [0, 1, 2, 0, 1] := by
  refine ⟨?_, ?_, by decide⟩
  · intro c h1 h2 h3
    simp only [runPlaybackEffect]
    rw [if_pos ⟨h1, h2, h3⟩]
  · intro c t ht
    unfold tickTimer
    rw [ht]

/-- Witness for C7: the running `cPlaying` and its effect-body rerun. -/
theorem playback_wraps_150ms_witness :
    (cPlayingBase.state.isPlaying = true ∧
      cPlayingBase.view ≠ ViewKind.volume3d ∧
      1 < cPlayingBase.state.images.length ∧
      (runPlaybackEffect cPlayingBase).timer =
        some { capturedImages := cPlayingBase.state.images, periodMs := 150 }) ∧
    (cPlaying.timer = some { capturedImages := imgsOld, periodMs := 150 } ∧
      (tickTimer cPlaying).state.currentImageIndex =
        playbackStep imgsOld.length cPlaying.state.currentImageIndex) ∧
    playbackTrace 3 0 5 = [0, 1, 2, 0, 1] :=
  ⟨⟨rfl, by decide, by decide,
    playback_wraps_150ms.1 cPlayingBase rfl (by decide) (by decide)⟩,
   ⟨rfl, playback_wraps_150ms.2.1 cPlaying
      { capturedImages := imgsOld, periodMs := 150 } rfl⟩,
   playback_wraps_150ms.2.2⟩

/-- C8: against a backend whose series list is empty, `loadDicomImages`
fails with `noSeriesFound`; every viewport kind mounted on it ends in the
empty display state (spinner gone, no images) with `renderCurrentImage`
taking its no-throw early-out; the load effect fires exactly once per mount
(`loadLog = [uid]`), re-committing it with the unchanged study identifier
is a no-op (no automatic retry), and only a changed study identifier
re-fires it. -/
theorem emptySeries_all_viewports_empty (b : Backend) (hb : b.series = [])
    (uid : String) :
    loadDicomImages b = .error .noSeriesFound ∧
    ∀ view : ViewKind,
      displayOf (mountViewport uid view b).state = .empty ∧
      renderCurrentImage (mountViewport uid view b).state = none ∧
      (mountViewport uid view b).loadLog = [uid] ∧
      commitLoadEffect (mountViewport uid view b) = mountViewport uid view b ∧
      ∀ uid2, uid2 ≠ uid →
        (commitLoadEffect { mountViewport uid view b with studyUid := uid2 }).loadLog =
          [uid, uid2] := by
  have hload : loadDicomImages b = .error .noSeriesFound := by
    unfold loadDicomImages; rw [hb]
  refine ⟨hload, fun view => ?_⟩
  have hmount : mountViewport uid view b =
      { studyUid := uid
        view := view
        state := applyLoadFailure { initialViewportState with isLoading := true }
        timer := none
        playbackDeps := none
        loadDeps := some uid
        loadLog := [uid] } := by
    unfold mountViewport commitLoadEffect initialComponent
    rw [if_neg (by simp)]
    rw [hload]
    rfl
  refine ⟨by rw [hmount]; rfl, by rw [hmount]; rfl, by rw [hmount], ?_, ?_⟩
  · rw [hmount, commitLoadEffect, if_pos rfl]
  · intro uid2 hne
    rw [hmount, commitLoadEffect]
    rw [if_neg (by simpa using fun h => hne h.symm)]
    rfl

/-- Witness for C8 at the concrete empty backend `bEmpty` and study
`"zzz"`. -/
theorem emptySeries_all_viewports_empty_witness :
    bEmpty.series = [] ∧
    (loadDicomImages bEmpty = .error .noSeriesFound ∧
    ∀ view : ViewKind,
      displayOf (mountViewport "zzz" view bEmpty).state = .empty ∧
      renderCurrentImage (mountViewport "zzz" view bEmpty).state = none ∧
      (mountViewport "zzz" view bEmpty).loadLog = ["zzz"] ∧
      commitLoadEffect (mountViewport "zzz" view bEmpty) =
        mountViewport "zzz" view bEmpty ∧
      ∀ uid2, uid2 ≠ "zzz" →
        (commitLoadEffect
            { mountViewport "zzz" view bEmpty with studyUid := uid2 }).loadLog =
          ["zzz", uid2]) :=
  ⟨rfl, emptySeries_all_viewports_empty bEmpty rfl "zzz"⟩

/-- C9: with exactly two uploaded files, one tagged image and one tagged
mask, a selected radiography type, and a successful response carrying
`study_uid = "abc123"`, `startUpload` reaches its success tail and the page
transitions from the upload step to the viewer step with
`studyId = "abc123"`. -/
theorem upload_transitions_to_viewer (s : IndexState) (files : List UploadedFile)
    (radiographyType : String) (r : UploadResult) (fImg fMask : UploadedFile)
    (hlen : files.length = 2)
    (himg : files.find? (fun f => decide (f.ftype = UploadFileType.image)) = some fImg)
    (hmask : files.find? (fun f => decide (f.ftype = UploadFileType.mask)) = some fMask)
    (hrt : radiographyType ≠ "")
    (hstep : s.currentStep = AppStep.upload)
    (huid : r.study_uid = "abc123") :
    startUpload files radiographyType (Except.ok r) = some r ∧
    s.currentStep = AppStep.upload ∧
    (uploadFlow s files radiographyType (Except.ok r)).currentStep = AppStep.viewer ∧
    (uploadFlow s files radiographyType (Except.ok r)).studyId = "abc123" := by
  have h1 : startUpload files radiographyType (Except.ok r) = some r := by
    unfold startUpload
    rw [if_neg (by simp [hlen, hrt]), himg, hmask]
  have h2 : uploadFlow s files radiographyType (Except.ok r) =
      handleUploadComplete s r.study_uid := by
    unfold uploadFlow
    rw [h1]
  exact ⟨h1, hstep, by rw [h2]; rfl, by rw [h2]; simpa [handleUploadComplete] using huid⟩

/-- Witness for C9 at the two concrete tagged files and the concrete
successful response `uploadResultEx`. -/
theorem upload_transitions_to_viewer_witness :
    filesEx.length = 2 ∧
    filesEx.find? (fun f => decide (f.ftype = UploadFileType.image)) =
      some { name := "scan.nii.gz", ftype := UploadFileType.image } ∧
    uploadResultEx.study_uid = "abc123" ∧
    (startUpload filesEx "cbct" (Except.ok uploadResultEx) = some uploadResultEx ∧
    sUploadPage.currentStep = AppStep.upload ∧
    (uploadFlow sUploadPage filesEx "cbct" (Except.ok uploadResultEx)).currentStep =
      AppStep.viewer ∧
    (uploadFlow sUploadPage filesEx "cbct" (Except.ok uploadResultEx)).studyId =
      "abc123") :=
  ⟨rfl, rfl, rfl,
   upload_transitions_to_viewer sUploadPage filesEx "cbct" uploadResultEx
     { name := "scan.nii.gz", ftype := UploadFileType.image }
     { name := "mask.nii.gz", ftype := UploadFileType.mask }
     rfl rfl rfl (by decide) rfl rfl⟩

theorem stepEvent_pan (s : ViewportState) (e : InputEvent) : (stepEvent s e).pan = s.pan := by
  cases e with
  | wheel deltaY ctrlKey =>
    show (handleWheel s deltaY ctrlKey).pan = s.pan
    unfold handleWheel
    split
    · rfl
    · split <;> rfl
  | sliderSet v => rfl
  | togglePlay => rfl
  | tick => rfl
  | loadComplete imgs => rfl
  | loadFailed => rfl

theorem foldl_stepEvent_pan (evs : List InputEvent) (s : ViewportState) :
    (evs.foldl stepEvent s).pan = s.pan := by
  induction evs generalizing s with
  | nil => rfl
  | cons e rest ih => rw [List.foldl_cons, ih, stepEvent_pan]

/-- C10: no handler of any implemented input event writes the pan offset
(the source declares `setPan` but never calls it), so over every event
sequence from the initial state the pan stays `(0, 0)`, and the composited
draw position is exactly the centered fit position — offset only by the
zoom-scaled draw dimensions, never by a pan. -/
theorem pan_never_mutated :
    (∀ evs : List InputEvent,
      (evs.foldl stepEvent initialViewportState).pan = (0, 0)) ∧
    (∀ (evs : List InputEvent) (canvasW canvasH drawW drawH : Rat),
      drawPosition canvasW canvasH drawW drawH
          (evs.foldl stepEvent initialViewportState).pan =
        ((canvasW - drawW) / 2, (canvasH - drawH) / 2)) := by
  have hpan : ∀ evs : List InputEvent,
      (evs.foldl stepEvent initialViewportState).pan = (0, 0) :=
    fun evs => foldl_stepEvent_pan evs initialViewportState
  refine ⟨hpan, fun evs canvasW canvasH drawW drawH => ?_⟩
  rw [hpan]
  simp [drawPosition]
